import Mathlib

/-!
Shallow embedding of the data-generation engine of `src/data_gen.py`
(synthetic dataset generator for statistical test scenarios).

Modelling conventions:
- Python floats are modelled as exact rationals (`ℚ`); every numeric literal
  in the source is exactly representable.
- The numpy random primitives (`np.random.normal`, `np.random.gamma`,
  `np.random.binomial`, `np.random.choice`) are modelled as abstract draw
  functions passed in as parameters.  The first argument of a draw function
  is the index of the rng call made by the generator (the generators make
  exactly one rng call per group, in group order, so the call index equals
  the 0-based group index); the remaining arguments are the distribution
  parameters and the requested size, exactly as passed at the call site.
- `st.session_state` is modelled as an explicit record of optional fields
  (a missing key is `none`); `load_scenario` becomes a state-to-state
  function.
- The Python dict `presets` is modelled as an association list in source
  order; membership test plus indexing (`scenario_num in presets` /
  `presets[scenario_num]`) becomes `presets_get`.
-/

/-- A generated record `{'user_id': ..., 'group': ..., 'metric': ...}`. -/
structure Row (α : Type) where
  user_id : ℕ
  group : String
  metric : α
deriving DecidableEq, Repr

/-- Parameters of a numpy continuous sampling call made by
`generate_continuous_data`: `np.random.normal(loc, scale, size)` or
`np.random.gamma(shape, scale, size)`. -/
inductive DrawDist where
  | normal (loc scale : ℚ)
  | gamma (shape scale : ℚ)
deriving DecidableEq, Repr

/-- `f"{group_prefix} {chr(65 + i)}"` (data_gen.py lines 60/99/125). -/
def group_name (gpfx : String) (i : ℕ) : String :=
  gpfx ++ " " ++ String.mk [Char.ofNat (65 + i)]

/-- The inner `for value in values:` loop shared by all three generators
(data_gen.py lines 83-89, 108-114, 144-150): one row per drawn value,
with the running `user_id_counter` incremented after each row. -/
def emit_rows (counter : ℕ) (g : String) : List α → List (Row α)
  | [] => []
  | v :: vs => ⟨counter, g, v⟩ :: emit_rows (counter + 1) g vs

/-- The outer `for i in range(num_paths):` loop shared by all three
generators: the first argument is the number of remaining groups, `i` is
the current 0-based group index, `counter` the running `user_id_counter`
(carried across groups, never reset).  `values_for i` is the list of
values drawn for group `i`. -/
def gen_groups (values_for : ℕ → List α) (gpfx : String) :
    ℕ → ℕ → ℕ → List (Row α)
  | 0, _, _ => []
  | num + 1, i, counter =>
    emit_rows counter (group_name gpfx i) (values_for i) ++
      gen_groups values_for gpfx num (i + 1) (counter + (values_for i).length)

/-- The distribution-selection branching of `generate_continuous_data`
(data_gen.py lines 62-80), as a function of the group index: the
parameters handed to the single numpy call made for group `i`. -/
def group_dist (distribution_shape variance_condition : String) (i : ℕ) : DrawDist :=
  if distribution_shape = "Normal" then
    if variance_condition = "Equal" then
      DrawDist.normal 50 10
    else
      DrawDist.normal (50 + (i : ℚ) * 10) (10 + (i : ℚ) * 5)
  else
    if variance_condition = "Equal" then
      DrawDist.gamma 2 10
    else
      DrawDist.gamma (2 + (i : ℚ) * 0.5) (10 + (i : ℚ) * 5)

/-- `generate_continuous_data` (data_gen.py lines 54-91).  `draw i d n`
stands for the numpy call of group `i` with parameters `d` and `size=n`. -/
def generate_continuous_data (draw : ℕ → DrawDist → ℕ → List ℚ)
    (num_paths sample_size_per_path : ℕ)
    (distribution_shape variance_condition gpfx : String) : List (Row ℚ) :=
  gen_groups
    (fun i => draw i (group_dist distribution_shape variance_condition i)
      sample_size_per_path)
    gpfx num_paths 0 1

/-- The per-group success probability of `generate_proportion_data`
(data_gen.py lines 102-103): `probability = 0.3 + (i * 0.2)` capped by
`min(probability, 0.9)`. -/
def proportion_prob (i : ℕ) : ℚ :=
  min (0.3 + (i : ℚ) * 0.2) 0.9

/-- `generate_proportion_data` (data_gen.py lines 93-116).  `draw i p n`
stands for `np.random.binomial(1, p, size=n)` made for group `i`. -/
def generate_proportion_data (draw : ℕ → ℚ → ℕ → List ℕ)
    (num_paths sample_size_per_path : ℕ) (gpfx : String) : List (Row ℕ) :=
  gen_groups (fun i => draw i (proportion_prob i) sample_size_per_path)
    gpfx num_paths 0 1

/-- `categories = ["Red", "Blue", "Green", "Yellow", "Purple", "Orange"]`
(data_gen.py line 122). -/
def categories : List String :=
  ["Red", "Blue", "Green", "Yellow", "Purple", "Orange"]

/-- The per-group weight branching of `generate_categorical_data`
(data_gen.py lines 128-135). -/
def category_weights (i : ℕ) : List ℚ :=
  if i = 0 then [0.4, 0.3, 0.2, 0.1, 0.0, 0.0]
  else if i = 1 then [0.1, 0.2, 0.4, 0.3, 0.0, 0.0]
  else if i = 2 then [0.0, 0.1, 0.2, 0.3, 0.4, 0.0]
  else [0.1, 0.1, 0.1, 0.1, 0.3, 0.3]

/-- The truncation and renormalisation of the weights (data_gen.py lines
138-139): `weights = weights[:min(len(categories), 6)]` then
`weights = [w / sum(weights) for w in weights]`. -/
def normalized_weights (i : ℕ) : List ℚ :=
  let ws := (category_weights i).take (min categories.length 6)
  ws.map (fun w => w / ws.sum)

/-- `generate_categorical_data` (data_gen.py lines 118-152).
`draw i cs ws n` stands for `np.random.choice(cs, size=n, p=ws)` made for
group `i`, where `cs = categories[:len(weights)]`. -/
def generate_categorical_data (draw : ℕ → List String → List ℚ → ℕ → List String)
    (num_paths sample_size_per_path : ℕ) (gpfx : String) : List (Row String) :=
  gen_groups
    (fun i => draw i (categories.take (normalized_weights i).length)
      (normalized_weights i) sample_size_per_path)
    gpfx num_paths 0 1

/-- One entry of the `presets` dict (data_gen.py lines 16-37). -/
structure Preset where
  metric_type : String
  distribution : String
  variance : String
  paths : ℕ
  samples : ℕ
  description : String
  expected_test : String
deriving DecidableEq, Repr

/-- The `presets` dict (data_gen.py lines 16-37), in source order. -/
def presets : List (ℤ × Preset) :=
  [ (1, ⟨"Continuous", "Normal", "Equal", 2, 1000, "t-test", "t-test"⟩),
    (2, ⟨"Continuous", "Normal", "Unequal", 2, 1000, "Welch's t-test", "Welch's t-test"⟩),
    (3, ⟨"Continuous", "Skewed", "Equal", 2, 1000, "Mann-Whitney", "Mann-Whitney"⟩),
    (4, ⟨"Continuous", "Skewed", "Unequal", 2, 1000, "Mann-Whitney", "Mann-Whitney"⟩),
    (5, ⟨"Continuous", "Normal", "Equal", 4, 1000, "ANOVA", "ANOVA"⟩),
    (6, ⟨"Continuous", "Normal", "Unequal", 4, 1000, "Welch's ANOVA", "Welch's ANOVA"⟩),
    (7, ⟨"Continuous", "Skewed", "Equal", 4, 1000, "Kruskal-Wallis", "Kruskal-Wallis"⟩),
    (8, ⟨"Continuous", "Skewed", "Unequal", 4, 1000, "Kruskal-Wallis", "Kruskal-Wallis"⟩),
    (9, ⟨"Proportion", "Binary", "-", 2, 1000, "Two-Proportion Z-Test", "Two-Proportion Z-Test"⟩),
    (10, ⟨"Proportion", "Binary", "-", 4, 1000, "Chi-Square", "Chi-Square"⟩),
    (11, ⟨"Categorical", "Uniform", "-", 2, 1000, "Chi-Square", "Chi-Square"⟩),
    (12, ⟨"Categorical", "Uniform", "-", 4, 1000, "Chi-Square", "Chi-Square"⟩),
    (13, ⟨"Continuous", "Normal", "Equal", 2, 1000, "t-test (duplicate)", "t-test (duplicate)"⟩),
    (14, ⟨"Continuous", "Skewed", "Unequal", 2, 1000, "Mann-Whitney (duplicate)", "Mann-Whitney (duplicate)"⟩),
    (15, ⟨"Proportion", "Binary", "-", 2, 1000, "Two-Proportion Z-Test (duplicate)", "Two-Proportion Z-Test (duplicate)"⟩),
    (16, ⟨"Proportion", "Binary", "-", 4, 1000, "Chi-Square (duplicate)", "Chi-Square (duplicate)"⟩),
    (17, ⟨"Continuous", "Normal", "Equal", 4, 1000, "ANOVA (confirm variance handling)", "ANOVA (confirm variance handling)"⟩),
    (18, ⟨"Continuous", "Skewed", "Unequal", 4, 1000, "Kruskal-Wallis (reconfirm skew+variance)", "Kruskal-Wallis (reconfirm skew+variance)"⟩),
    (19, ⟨"Proportion", "Binary", "-", 4, 1000, "Chi-Square (retest large groups)", "Chi-Square (retest large groups)"⟩),
    (20, ⟨"Categorical", "Uniform", "-", 4, 1000, "Chi-Square (multi-level categorical)", "Chi-Square (multi-level categorical)"⟩) ]

/-- Dict lookup: `scenario_num in presets` together with
`presets[scenario_num]`. -/
def presets_get (id : ℤ) : Option Preset :=
  (presets.find? (fun kv => kv.1 == id)).map Prod.snd

/-- `st.session_state`, restricted to the keys touched by
`load_scenario`; a key not yet set is `none`. -/
structure SessionState where
  current_scenario : Option ℤ
  num_paths : Option ℕ
  metric_type : Option String
  sample_size_per_path : Option ℕ
  file_name : Option String
  distribution_shape : Option String
  variance_condition : Option String
deriving DecidableEq, Repr

/-- A fresh streamlit session: no keys set. -/
def init_state : SessionState :=
  ⟨none, none, none, none, none, none, none⟩

/-- `load_scenario` (data_gen.py lines 39-52): on a known id it copies the
preset fields into the session state; `distribution_shape` and
`variance_condition` are copied only when the preset is Continuous, and
are otherwise left untouched.  On an unknown id nothing happens. -/
def load_scenario (s : SessionState) (scenario_num : ℤ) : SessionState :=
  match presets_get scenario_num with
  | none => s
  | some preset =>
    let s1 : SessionState :=
      { s with
        current_scenario := some scenario_num
        num_paths := some preset.paths
        metric_type := some preset.metric_type
        sample_size_per_path := some preset.samples
        file_name := some ("test inputs/scenario" ++ toString scenario_num ++ ".csv") }
    if preset.metric_type = "Continuous" then
      { s1 with
        distribution_shape := some preset.distribution
        variance_condition := some preset.variance }
    else s1

/-- `validate_inputs` (data_gen.py lines 154-172): the list of error
messages, in source order. -/
def validate_inputs (num_paths sample_size_per_path : ℤ)
    (gpfx file_name : String) : List String :=
  (if num_paths ≤ 0 then ["Number of Paths must be greater than 0"] else []) ++
  (if sample_size_per_path ≤ 0 then ["Sample Size Per Path must be greater than 0"] else []) ++
  (if gpfx.trim = "" then ["Group Label Prefix cannot be empty"] else []) ++
  (if file_name.trim = "" then ["File Name cannot be empty"]
   else if ¬ file_name.endsWith ".csv" then ["File Name must end with .csv"] else [])

/-- The metric column of the assembled dataset: float for Continuous,
0/1 integer for Proportion, label for Categorical. -/
inductive MetricValue where
  | cont (x : ℚ)
  | bin (x : ℕ)
  | catg (s : String)
deriving DecidableEq, Repr

/-- The generate-button flow of `main` (data_gen.py lines 290-313):
validate the inputs, stop with the error messages if any, otherwise
dispatch on `metric_type` to the matching generator. -/
def generate_synthetic (cdraw : ℕ → DrawDist → ℕ → List ℚ)
    (pdraw : ℕ → ℚ → ℕ → List ℕ)
    (kdraw : ℕ → List String → List ℚ → ℕ → List String)
    (metric_type : String) (num_paths sample_size_per_path : ℤ)
    (distribution_shape variance_condition gpfx file_name : String) :
    Except (List String) (List (Row MetricValue)) :=
  let errors := validate_inputs num_paths sample_size_per_path gpfx file_name
  if errors = [] then
    if metric_type = "Continuous" then
      Except.ok ((generate_continuous_data cdraw num_paths.toNat
        sample_size_per_path.toNat distribution_shape variance_condition gpfx).map
        (fun r => ⟨r.user_id, r.group, MetricValue.cont r.metric⟩))
    else if metric_type = "Proportion" then
      Except.ok ((generate_proportion_data pdraw num_paths.toNat
        sample_size_per_path.toNat gpfx).map
        (fun r => ⟨r.user_id, r.group, MetricValue.bin r.metric⟩))
    else
      Except.ok ((generate_categorical_data kdraw num_paths.toNat
        sample_size_per_path.toNat gpfx).map
        (fun r => ⟨r.user_id, r.group, MetricValue.catg r.metric⟩))
  else
    Except.error errors

/-- The configuration fields of a preset (everything except the two
descriptive strings), used to compare duplicate presets. -/
def config_of (p : Preset) : String × String × String × ℕ × ℕ :=
  (p.metric_type, p.distribution, p.variance, p.paths, p.samples)

/-- Structural well-formedness of a generated dataset: exact row count,
`user_id` exactly `1..num_paths*n` in order, and the group column made of
contiguous blocks of `n` rows in group-index order. -/
def well_formed (ds : List (Row α)) (num_paths n : ℕ) (gpfx : String) : Prop :=
  ds.length = num_paths * n ∧
  ds.map Row.user_id = List.range' 1 (num_paths * n) ∧
  ds.map Row.group =
    (List.range num_paths).flatMap (fun j => List.replicate n (group_name gpfx j))

-- Structural lemmas about the shared row-emission loops.

theorem emit_rows_length (g : String) (vs : List α) (c : ℕ) :
    (emit_rows c g vs).length = vs.length := by
  induction vs generalizing c with
  | nil => rfl
  | cons v vs ih => simp [emit_rows, ih]

theorem emit_rows_map_user_id (g : String) (vs : List α) (c : ℕ) :
    (emit_rows c g vs).map Row.user_id = List.range' c vs.length := by
  induction vs generalizing c with
  | nil => rfl
  | cons v vs ih => simp [emit_rows, ih, List.range'_succ]

theorem emit_rows_map_group (g : String) (vs : List α) (c : ℕ) :
    (emit_rows c g vs).map Row.group = List.replicate vs.length g := by
  induction vs generalizing c with
  | nil => rfl
  | cons v vs ih => simp [emit_rows, ih, List.replicate_succ]

theorem emit_rows_map_metric (g : String) (vs : List α) (c : ℕ) :
    (emit_rows c g vs).map Row.metric = vs := by
  induction vs generalizing c with
  | nil => rfl
  | cons v vs ih => simp [emit_rows, ih]

theorem gen_groups_map_metric (f : ℕ → List α) (gpfx : String) (k i c : ℕ) :
    (gen_groups f gpfx k i c).map Row.metric = (List.range' i k).flatMap f := by
  induction k generalizing i c with
  | zero => rfl
  | succ k ih =>
    simp [gen_groups, List.range'_succ, emit_rows_map_metric, ih]

theorem gen_groups_length (f : ℕ → List α) (gpfx : String) (n : ℕ)
    (hf : ∀ j, (f j).length = n) (k i c : ℕ) :
    (gen_groups f gpfx k i c).length = k * n := by
  induction k generalizing i c with
  | zero => simp [gen_groups]
  | succ k ih =>
    simp only [gen_groups, List.length_append, emit_rows_length, hf, ih]
    ring

theorem gen_groups_map_user_id (f : ℕ → List α) (gpfx : String) (n : ℕ)
    (hf : ∀ j, (f j).length = n) (k i c : ℕ) :
    (gen_groups f gpfx k i c).map Row.user_id = List.range' c (k * n) := by
  induction k generalizing i c with
  | zero => simp [gen_groups]
  | succ k ih =>
    rw [gen_groups, List.map_append, emit_rows_map_user_id, hf, ih,
      show (k + 1) * n = n + k * n by ring, List.range'_append_1, Nat.add_comm]


theorem gen_groups_map_group (f : ℕ → List α) (gpfx : String) (n : ℕ)
    (hf : ∀ j, (f j).length = n) (k i c : ℕ) :
    (gen_groups f gpfx k i c).map Row.group
      = (List.range' i k).flatMap (fun j => List.replicate n (group_name gpfx j)) := by
  induction k generalizing i c with
  | zero => rfl
  | succ k ih =>
    simp [gen_groups, List.range'_succ, emit_rows_map_group, hf, ih]

theorem gen_groups_well_formed (f : ℕ → List α) (gpfx : String) (num_paths n : ℕ)
    (hf : ∀ j, (f j).length = n) :
    well_formed (gen_groups f gpfx num_paths 0 1) num_paths n gpfx := by
  refine ⟨gen_groups_length f gpfx n hf num_paths 0 1,
    gen_groups_map_user_id f gpfx n hf num_paths 0 1, ?_⟩
  rw [gen_groups_map_group f gpfx n hf num_paths 0 1, List.range_eq_range']

/-- C1: For every valid configuration (numGroups > 0, sampleSizePerGroup > 0),
each of the three samplers returns a dataset with exactly
numGroups × sampleSizePerGroup rows, whose user_id values are exactly
1..numGroups×sampleSizePerGroup assigned sequentially from 1 across all
groups without resetting, and whose rows form contiguous per-group blocks
in group-index order. -/
theorem C1_dataset_structure
    (cdraw : ℕ → DrawDist → ℕ → List ℚ) (pdraw : ℕ → ℚ → ℕ → List ℕ)
    (kdraw : ℕ → List String → List ℚ → ℕ → List String)
    (num_paths n : ℕ) (shape var gpfx : String)
    (_hpaths : 0 < num_paths) (_hsize : 0 < n)
    (hc : ∀ i d, (cdraw i d n).length = n)
    (hp : ∀ i p, (pdraw i p n).length = n)
    (hk : ∀ i cs ws, (kdraw i cs ws n).length = n) :
    well_formed (generate_continuous_data cdraw num_paths n shape var gpfx)
      num_paths n gpfx ∧
    well_formed (generate_proportion_data pdraw num_paths n gpfx)
      num_paths n gpfx ∧
    well_formed (generate_categorical_data kdraw num_paths n gpfx)
      num_paths n gpfx :=
  ⟨gen_groups_well_formed _ gpfx num_paths n (fun j => hc j _),
   gen_groups_well_formed _ gpfx num_paths n (fun j => hp j _),
   gen_groups_well_formed _ gpfx num_paths n (fun j => hk j _ _)⟩

/-- Witness for C1 at a concrete configuration (2 groups of 3 rows). -/
theorem C1_dataset_structure_witness :
    well_formed (generate_continuous_data (fun _ _ m => List.replicate m 0)
      2 3 "Normal" "Equal" "Group") 2 3 "Group" ∧
    well_formed (generate_proportion_data (fun _ _ m => List.replicate m 0)
      2 3 "Group") 2 3 "Group" ∧
    well_formed (generate_categorical_data (fun _ _ _ m => List.replicate m "Red")
      2 3 "Group") 2 3 "Group" :=
  C1_dataset_structure (fun _ _ m => List.replicate m 0)
    (fun _ _ m => List.replicate m 0) (fun _ _ _ m => List.replicate m "Red")
    2 3 "Normal" "Equal" "Group" (by decide) (by decide)
    (fun i d => by simp) (fun i p => by simp) (fun i cs ws => by simp)

/-- C2: the continuous generator makes one numpy call of size
sampleSizePerGroup per group and stores the raw draws unchanged, and the
distribution parameters of group i are: Normal/Equal → Normal(50,10);
Normal/Unequal → Normal(50+10·i, 10+5·i); Skewed/Equal → Gamma(2,10);
Skewed/Unequal → Gamma(2+0.5·i, 10+5·i). -/
theorem C2_continuous_parameters
    (draw : ℕ → DrawDist → ℕ → List ℚ) (num_paths n : ℕ)
    (shape var gpfx : String) :
    ((generate_continuous_data draw num_paths n shape var gpfx).map Row.metric
      = (List.range num_paths).flatMap (fun i => draw i (group_dist shape var i) n)) ∧
    (∀ i : ℕ,
      group_dist "Normal" "Equal" i = DrawDist.normal 50 10 ∧
      group_dist "Normal" "Unequal" i
        = DrawDist.normal (50 + 10 * (i : ℚ)) (10 + 5 * (i : ℚ)) ∧
      group_dist "Skewed" "Equal" i = DrawDist.gamma 2 10 ∧
      group_dist "Skewed" "Unequal" i
        = DrawDist.gamma (2 + 0.5 * (i : ℚ)) (10 + 5 * (i : ℚ))) := by
  constructor
  · rw [generate_continuous_data, gen_groups_map_metric, List.range_eq_range']
  · intro i
    refine ⟨by simp [group_dist], ?_, by simp [group_dist], ?_⟩ <;>
      simp only [group_dist, if_pos, if_neg, String.reduceEq, reduceIte] <;>
      ring_nf

/-- C3: the proportion generator uses success probability
min(0.3 + 0.2·i, 0.9) for group i (0.3, 0.5, 0.7, 0.9 for i = 0..3),
makes one Bernoulli call of size sampleSizePerGroup per group whose raw
draws become the metric values, and every metric value is 0 or 1. -/
theorem C3_proportion_parameters
    (draw : ℕ → ℚ → ℕ → List ℕ) (num_paths n : ℕ) (gpfx : String)
    (hdraw : ∀ i p x, x ∈ draw i p n → x = 0 ∨ x = 1) :
    (∀ i : ℕ, proportion_prob i = min (0.3 + 0.2 * (i : ℚ)) 0.9) ∧
    (proportion_prob 0 = 0.3 ∧ proportion_prob 1 = 0.5 ∧
     proportion_prob 2 = 0.7 ∧ proportion_prob 3 = 0.9) ∧
    ((generate_proportion_data draw num_paths n gpfx).map Row.metric
      = (List.range num_paths).flatMap (fun i => draw i (proportion_prob i) n)) ∧
    (∀ r ∈ generate_proportion_data draw num_paths n gpfx,
      r.metric = 0 ∨ r.metric = 1) := by
  refine ⟨fun i => by rw [proportion_prob, mul_comm], by norm_num [proportion_prob],
    ?_, ?_⟩
  · rw [generate_proportion_data, gen_groups_map_metric, List.range_eq_range']
  · intro r hr
    have hm : r.metric ∈ (generate_proportion_data draw num_paths n gpfx).map Row.metric :=
      List.mem_map_of_mem Row.metric hr
    rw [generate_proportion_data, gen_groups_map_metric] at hm
    obtain ⟨i, _, hi⟩ := List.mem_flatMap.mp hm
    exact hdraw i _ _ hi

/-- Witness for C3 at a concrete draw function and configuration. -/
theorem C3_proportion_parameters_witness :
    (∀ i : ℕ, proportion_prob i = min (0.3 + 0.2 * (i : ℚ)) 0.9) ∧
    (proportion_prob 0 = 0.3 ∧ proportion_prob 1 = 0.5 ∧
     proportion_prob 2 = 0.7 ∧ proportion_prob 3 = 0.9) ∧
    ((generate_proportion_data (fun _ _ m => List.replicate m 1) 4 2 "Group").map
        Row.metric
      = (List.range 4).flatMap (fun i =>
          (fun (_ : ℕ) (_ : ℚ) m => List.replicate m 1) i (proportion_prob i) 2)) ∧
    (∀ r ∈ generate_proportion_data (fun _ _ m => List.replicate m 1) 4 2 "Group",
      r.metric = 0 ∨ r.metric = 1) :=
  C3_proportion_parameters (fun _ _ m => List.replicate m 1) 4 2 "Group"
    (fun i p x hx => by
      simp only [List.mem_replicate] at hx
      exact Or.inr hx.2)

/-- C10 (implicit): the continuous sampler is total over all string-valued
shape/variance inputs: any distributionShape other than "Normal" takes the
Gamma branch, any varianceCondition other than "Equal" takes the Unequal
branch, and generation always succeeds, silently producing a full dataset
(one rng call per group, one row per drawn value). -/
theorem C10_continuous_totality
    (draw : ℕ → DrawDist → ℕ → List ℚ) (num_paths n : ℕ)
    (shape var gpfx : String) (i : ℕ)
    (hshape : shape ≠ "Normal") (hvar : var ≠ "Equal") :
    group_dist shape "Equal" i = DrawDist.gamma 2 10 ∧
    group_dist shape var i
      = DrawDist.gamma (2 + (i : ℚ) * 0.5) (10 + (i : ℚ) * 5) ∧
    group_dist "Normal" var i
      = DrawDist.normal (50 + (i : ℚ) * 10) (10 + (i : ℚ) * 5) ∧
    ((generate_continuous_data draw num_paths n shape var gpfx).map Row.metric
      = (List.range num_paths).flatMap (fun j => draw j (group_dist shape var j) n)) := by
  refine ⟨?_, ?_, ?_, ?_⟩
  · simp [group_dist, hshape]
  · simp [group_dist, hshape, hvar]
  · simp [group_dist, hvar]
  · rw [generate_continuous_data, gen_groups_map_metric, List.range_eq_range']

/-- Witness for C10 at an unrecognized shape and variance string. -/
theorem C10_continuous_totality_witness :
    group_dist "Weird" "Equal" 1 = DrawDist.gamma 2 10 ∧
    group_dist "Weird" "Odd" 1 = DrawDist.gamma (2 + (1 : ℚ) * 0.5) (10 + (1 : ℚ) * 5) ∧
    group_dist "Normal" "Odd" 1
      = DrawDist.normal (50 + (1 : ℚ) * 10) (10 + (1 : ℚ) * 5) ∧
    ((generate_continuous_data (fun _ _ m => List.replicate m 7) 2 2 "Weird" "Odd"
        "Group").map Row.metric
      = (List.range 2).flatMap (fun j =>
          (fun (_ : ℕ) (_ : DrawDist) m => List.replicate m (7 : ℚ)) j
            (group_dist "Weird" "Odd" j) 2)) :=
  C10_continuous_totality (fun _ _ m => List.replicate m 7) 2 2 "Weird" "Odd"
    "Group" 1 (by decide) (by decide)

/-- C4: the categorical generator uses the fixed category universe
[Red, Blue, Green, Yellow, Purple, Orange]; group 0 uses weights
[0.4,0.3,0.2,0.1,0,0], group 1 [0.1,0.2,0.4,0.3,0,0], group 2
[0,0.1,0.2,0.3,0.4,0], and every group index ≥ 3 [0.1,0.1,0.1,0.1,0.3,0.3];
renormalisation leaves each vector unchanged (each already sums to 1); and
every metric value is one of the six labels. -/
theorem C4_categorical_parameters
    (draw : ℕ → List String → List ℚ → ℕ → List String) (num_paths n : ℕ)
    (gpfx : String)
    (hdraw : ∀ i cs ws x, x ∈ draw i cs ws n → x ∈ cs) :
    categories = ["Red", "Blue", "Green", "Yellow", "Purple", "Orange"] ∧
    category_weights 0 = [0.4, 0.3, 0.2, 0.1, 0.0, 0.0] ∧
    category_weights 1 = [0.1, 0.2, 0.4, 0.3, 0.0, 0.0] ∧
    category_weights 2 = [0.0, 0.1, 0.2, 0.3, 0.4, 0.0] ∧
    (∀ i, 3 ≤ i → category_weights i = [0.1, 0.1, 0.1, 0.1, 0.3, 0.3]) ∧
    (∀ i, (category_weights i).sum = 1 ∧ normalized_weights i = category_weights i) ∧
    ((generate_categorical_data draw num_paths n gpfx).map Row.metric
      = (List.range num_paths).flatMap (fun i =>
          draw i (categories.take (normalized_weights i).length)
            (normalized_weights i) n)) ∧
    (∀ r ∈ generate_categorical_data draw num_paths n gpfx, r.metric ∈ categories) := by
  have hw3 : ∀ i, 3 ≤ i → category_weights i = [0.1, 0.1, 0.1, 0.1, 0.3, 0.3] := by
    intro i hi
    rw [category_weights, if_neg (by omega), if_neg (by omega), if_neg (by omega)]
  have hnorm : ∀ i, (category_weights i).sum = 1 ∧
      normalized_weights i = category_weights i := by
    intro i
    rcases (by omega : i = 0 ∨ i = 1 ∨ i = 2 ∨ 3 ≤ i) with h | h | h | h
    · subst h; constructor <;> norm_num [normalized_weights, category_weights, categories]
    · subst h; constructor <;> norm_num [normalized_weights, category_weights, categories]
    · subst h; constructor <;> norm_num [normalized_weights, category_weights, categories]
    · rw [normalized_weights, hw3 i h]
      norm_num [categories]
  refine ⟨rfl, rfl, rfl, rfl, hw3, hnorm, ?_, ?_⟩
  · rw [generate_categorical_data, gen_groups_map_metric, List.range_eq_range']
  · intro r hr
    have hm : r.metric ∈
        (generate_categorical_data draw num_paths n gpfx).map Row.metric :=
      List.mem_map_of_mem Row.metric hr
    rw [generate_categorical_data, gen_groups_map_metric] at hm
    obtain ⟨i, _, hi⟩ := List.mem_flatMap.mp hm
    exact List.take_subset _ _ (hdraw i _ _ _ hi)

/-- Witness for C4: the draw function returns elements of the given
category list. -/
theorem C4_categorical_parameters_witness :
    categories = ["Red", "Blue", "Green", "Yellow", "Purple", "Orange"] ∧
    category_weights 0 = [0.4, 0.3, 0.2, 0.1, 0.0, 0.0] ∧
    category_weights 1 = [0.1, 0.2, 0.4, 0.3, 0.0, 0.0] ∧
    category_weights 2 = [0.0, 0.1, 0.2, 0.3, 0.4, 0.0] ∧
    (∀ i, 3 ≤ i → category_weights i = [0.1, 0.1, 0.1, 0.1, 0.3, 0.3]) ∧
    (∀ i, (category_weights i).sum = 1 ∧ normalized_weights i = category_weights i) ∧
    ((generate_categorical_data (fun _ cs _ m => cs.take m) 4 2 "Group").map
        Row.metric
      = (List.range 4).flatMap (fun i =>
          (fun (_ : ℕ) (cs : List String) (_ : List ℚ) m => cs.take m) i
            (categories.take (normalized_weights i).length)
            (normalized_weights i) 2)) ∧
    (∀ r ∈ generate_categorical_data (fun _ cs _ m => cs.take m) 4 2 "Group",
      r.metric ∈ categories) :=
  C4_categorical_parameters (fun _ cs _ m => cs.take m) 4 2 "Group"
    (fun _ _ _ _ hx => List.mem_of_mem_take hx)

/-- C5: the catalog has exactly 20 entries keyed 1..20, the entries for
ids 1..12 match the spec table field by field (the table's dash for
varianceCondition of presets 9-12 is the source's "-" string), and
getPreset(5) is Continuous/Normal/Equal, 4 groups, 1000 per group,
expected test "ANOVA". -/
theorem C5_catalog_table :
    presets.length = 20 ∧
    presets.map Prod.fst =
      [1, 2, 3, 4, 5, 6, 7, 8, 9, 10, 11, 12, 13, 14, 15, 16, 17, 18, 19, 20] ∧
    presets_get 1 = some ⟨"Continuous", "Normal", "Equal", 2, 1000, "t-test", "t-test"⟩ ∧
    presets_get 2 = some ⟨"Continuous", "Normal", "Unequal", 2, 1000, "Welch's t-test", "Welch's t-test"⟩ ∧
    presets_get 3 = some ⟨"Continuous", "Skewed", "Equal", 2, 1000, "Mann-Whitney", "Mann-Whitney"⟩ ∧
    presets_get 4 = some ⟨"Continuous", "Skewed", "Unequal", 2, 1000, "Mann-Whitney", "Mann-Whitney"⟩ ∧
    presets_get 5 = some ⟨"Continuous", "Normal", "Equal", 4, 1000, "ANOVA", "ANOVA"⟩ ∧
    presets_get 6 = some ⟨"Continuous", "Normal", "Unequal", 4, 1000, "Welch's ANOVA", "Welch's ANOVA"⟩ ∧
    presets_get 7 = some ⟨"Continuous", "Skewed", "Equal", 4, 1000, "Kruskal-Wallis", "Kruskal-Wallis"⟩ ∧
    presets_get 8 = some ⟨"Continuous", "Skewed", "Unequal", 4, 1000, "Kruskal-Wallis", "Kruskal-Wallis"⟩ ∧
    presets_get 9 = some ⟨"Proportion", "Binary", "-", 2, 1000, "Two-Proportion Z-Test", "Two-Proportion Z-Test"⟩ ∧
    presets_get 10 = some ⟨"Proportion", "Binary", "-", 4, 1000, "Chi-Square", "Chi-Square"⟩ ∧
    presets_get 11 = some ⟨"Categorical", "Uniform", "-", 2, 1000, "Chi-Square", "Chi-Square"⟩ ∧
    presets_get 12 = some ⟨"Categorical", "Uniform", "-", 4, 1000, "Chi-Square", "Chi-Square"⟩ := by
  decide

/-- C6 as stated is false: preset 18 is Continuous/Skewed/Unequal with 4
groups, which is the configuration of preset 8, not of preset 7
(Continuous/Skewed/Equal). -/
theorem C6_duplicate_of_preset7_refuted :
    ¬ ((presets_get 18).map config_of = (presets_get 7).map config_of) := by
  decide

/-- C6 amended: presets 13-20 duplicate the configurations of presets
1, 4, 9, 10, 5, 8, 10, 12 respectively (18 duplicates 8, not 7: its
varianceCondition is Unequal, not Equal). -/
theorem C6_duplicates_amended :
    (presets_get 13).map config_of = (presets_get 1).map config_of ∧
    (presets_get 14).map config_of = (presets_get 4).map config_of ∧
    (presets_get 15).map config_of = (presets_get 9).map config_of ∧
    (presets_get 16).map config_of = (presets_get 10).map config_of ∧
    (presets_get 17).map config_of = (presets_get 5).map config_of ∧
    (presets_get 18).map config_of = (presets_get 8).map config_of ∧
    (presets_get 19).map config_of = (presets_get 10).map config_of ∧
    (presets_get 20).map config_of = (presets_get 12).map config_of :=
  ⟨rfl, rfl, rfl, rfl, rfl, rfl, rfl, rfl⟩

/-- C7: generation with numGroups ≤ 0 or sampleSizePerGroup ≤ 0 fails at
validation with the matching error message, before any dataset row is
produced: the result is the error list, never a (partial) dataset. -/
theorem C7_invalid_config
    (cdraw : ℕ → DrawDist → ℕ → List ℚ) (pdraw : ℕ → ℚ → ℕ → List ℕ)
    (kdraw : ℕ → List String → List ℚ → ℕ → List String)
    (metric_type : String) (num_paths sample_size_per_path : ℤ)
    (shape var gpfx file_name : String)
    (h : num_paths ≤ 0 ∨ sample_size_per_path ≤ 0) :
    generate_synthetic cdraw pdraw kdraw metric_type num_paths
        sample_size_per_path shape var gpfx file_name
      = Except.error (validate_inputs num_paths sample_size_per_path gpfx file_name) ∧
    validate_inputs num_paths sample_size_per_path gpfx file_name ≠ [] ∧
    (num_paths ≤ 0 →
      "Number of Paths must be greater than 0"
        ∈ validate_inputs num_paths sample_size_per_path gpfx file_name) ∧
    (sample_size_per_path ≤ 0 →
      "Sample Size Per Path must be greater than 0"
        ∈ validate_inputs num_paths sample_size_per_path gpfx file_name) := by
  have hne : validate_inputs num_paths sample_size_per_path gpfx file_name ≠ [] := by
    rcases h with h | h <;> simp [validate_inputs, h]
  refine ⟨?_, hne, ?_, ?_⟩
  · simp only [generate_synthetic]
    rw [if_neg hne]
  · intro h1; simp [validate_inputs, h1]
  · intro h2; simp [validate_inputs, h2]

/-- Witness for C7 at numGroups = 0. -/
theorem C7_invalid_config_witness :
    generate_synthetic (fun _ _ m => List.replicate m 0)
        (fun _ _ m => List.replicate m 0) (fun _ _ _ m => List.replicate m "Red")
        "Continuous" 0 1000 "Normal" "Equal" "Group" "data.csv"
      = Except.error (validate_inputs 0 1000 "Group" "data.csv") ∧
    validate_inputs 0 1000 "Group" "data.csv" ≠ [] ∧
    ((0 : ℤ) ≤ 0 →
      "Number of Paths must be greater than 0"
        ∈ validate_inputs 0 1000 "Group" "data.csv") ∧
    ((1000 : ℤ) ≤ 0 →
      "Sample Size Per Path must be greater than 0"
        ∈ validate_inputs 0 1000 "Group" "data.csv") :=
  C7_invalid_config (fun _ _ m => List.replicate m 0)
    (fun _ _ m => List.replicate m 0) (fun _ _ _ m => List.replicate m "Red")
    "Continuous" 0 1000 "Normal" "Equal" "Group" "data.csv" (Or.inl (by decide))

/-- C8: getPreset succeeds exactly on ids 1..20; on any other integer the
lookup reports no preset and loading is a no-op on the session state (no
configuration is loaded or partially loaded). -/
theorem C8_get_preset (id : ℤ) :
    (1 ≤ id ∧ id ≤ 20 → (presets_get id).isSome = true) ∧
    (¬(1 ≤ id ∧ id ≤ 20) →
      presets_get id = none ∧ ∀ s : SessionState, load_scenario s id = s) := by
  constructor
  · rintro ⟨h1, h2⟩
    interval_cases id <;> decide
  · intro h
    have hnone : presets_get id = none := by
      have hfind : presets.find? (fun kv => kv.1 == id) = none := by
        rw [List.find?_eq_none]
        intro kv hkv
        fin_cases hkv <;> simp <;> omega
      rw [presets_get, hfind]
      rfl
    exact ⟨hnone, fun s => by rw [load_scenario, hnone]⟩

/-- Witness for C8 at a known id (5) and an unknown id (21). -/
theorem C8_get_preset_witness :
    (presets_get 5).isSome = true ∧ presets_get 21 = none ∧
    load_scenario init_state 21 = init_state :=
  ⟨(C8_get_preset 5).1 (by decide), ((C8_get_preset 21).2 (by decide)).1,
   ((C8_get_preset 21).2 (by decide)).2 init_state⟩

/-- C9 as stated is false: `load_scenario` sets distribution_shape and
variance_condition only for Continuous presets and never clears them, so
loading Continuous preset 1 and then Proportion preset 9 yields a session
whose metricType is Proportion while distributionShape and
varianceCondition are still set (to "Normal"/"Equal"). -/
theorem C9_invariant_refuted :
    (load_scenario (load_scenario init_state 1) 9).metric_type = some "Proportion" ∧
    (load_scenario (load_scenario init_state 1) 9).distribution_shape = some "Normal" ∧
    (load_scenario (load_scenario init_state 1) 9).variance_condition = some "Equal" := by
  decide

/-- C9 amended: catalog entries carry a genuine shape in {Normal, Skewed}
and a genuine variance in {Equal, Unequal} iff metricType is Continuous
(non-Continuous entries hold the placeholders "Binary"/"Uniform" and "-");
loading a preset into a fresh session sets distributionShape and
varianceCondition iff the preset is Continuous; and loading a
non-Continuous preset leaves any previously set values untouched. -/
theorem C9_invariant_amended :
    (∀ kv ∈ presets,
      ((kv.2.distribution = "Normal" ∨ kv.2.distribution = "Skewed") ↔
        kv.2.metric_type = "Continuous") ∧
      ((kv.2.variance = "Equal" ∨ kv.2.variance = "Unequal") ↔
        kv.2.metric_type = "Continuous")) ∧
    (∀ id : ℤ,
      ((load_scenario init_state id).metric_type = some "Continuous" →
        ((load_scenario init_state id).distribution_shape).isSome = true ∧
        ((load_scenario init_state id).variance_condition).isSome = true) ∧
      (∀ m : String, (load_scenario init_state id).metric_type = some m →
        m ≠ "Continuous" →
        (load_scenario init_state id).distribution_shape = none ∧
        (load_scenario init_state id).variance_condition = none)) ∧
    (∀ (s : SessionState) (id : ℤ) (p : Preset), presets_get id = some p →
      p.metric_type ≠ "Continuous" →
      (load_scenario s id).distribution_shape = s.distribution_shape ∧
      (load_scenario s id).variance_condition = s.variance_condition) := by
  refine ⟨by decide, ?_, ?_⟩
  · intro id
    cases hp : presets_get id with
    | none =>
      constructor
      · intro hmt
        rw [load_scenario, hp] at hmt
        simp [init_state] at hmt
      · intro m hmt
        rw [load_scenario, hp] at hmt
        simp [init_state] at hmt
    | some p =>
      by_cases hc : p.metric_type = "Continuous"
      · constructor
        · intro _
          constructor <;> simp [load_scenario, hp, hc]
        · intro m hmt hm
          rw [load_scenario, hp] at hmt
          simp only [hc, if_pos] at hmt
          simp at hmt
          exact absurd hmt.symm hm
      · constructor
        · intro hmt
          rw [load_scenario, hp] at hmt
          simp only [hc, if_neg, reduceIte] at hmt
          simp at hmt
          exact absurd hmt hc
        · intro m hmt hm
          constructor <;> simp [load_scenario, hp, hc, init_state]
  · intro s id p hp hc
    constructor <;> simp [load_scenario, hp, hc]

/-- Witness for C9 amended: preset 9 (Proportion) loaded into a fresh
session leaves distributionShape and varianceCondition unset. -/
theorem C9_invariant_amended_witness :
    (load_scenario init_state 9).distribution_shape = none ∧
    (load_scenario init_state 9).variance_condition = none :=
  ((C9_invariant_amended.2.1 9).2 "Proportion" (by decide) (by decide))
